import Mathlib

/-!
Shallow embedding of `src/Renderer/src/Renderer.cpp` (Doom.NET scaffold):
device and swap-chain initialization (`Renderer::InitDevice`), per-frame
rendering (`Renderer::Render`) and teardown (`Renderer::CleanupDevice`).

The D3D11/DXGI platform calls are modelled by an environment `Env` giving
the HRESULT outcome of each call site.  COM conventions are assumed: a
call that returns a success HRESULT yields a non-null out pointer, and a
failed `QueryInterface` or creation call leaves its out pointer null.
Member pointers of the `Renderer` object are modelled by Booleans
(non-null / null); the observable platform effects of a run are recorded
as an event trace.
-/

namespace Renderer

abbrev HRESULT := Int

def S_OK : HRESULT := 0

def E_FAIL : HRESULT := -2147467259

def E_INVALIDARG : HRESULT := -2147024809

/-- The COM SUCCEEDED test: non-negative HRESULT. -/
def SUCCEEDED (hr : HRESULT) : Bool := decide (0 ≤ hr)

/-- The COM FAILED test: negative HRESULT. -/
def FAILED (hr : HRESULT) : Bool := decide (hr < 0)

/-- Values of `D3D_DRIVER_TYPE` appearing in the `driverTypes` array. -/
inductive DriverType
  | hardware
  | warp
  | reference
deriving DecidableEq, Repr

/-- Values of `D3D_FEATURE_LEVEL` appearing in the `featureLevels` array. -/
inductive FeatureLevel
  | fl11_1
  | fl11_0
  | fl10_1
  | fl10_0
deriving DecidableEq, Repr

/-- The `driverTypes` array of `InitDevice`, in source order. -/
def driverTypes : List DriverType :=
  [DriverType.hardware, DriverType.warp, DriverType.reference]

/-- The `featureLevels` array of `InitDevice`, in source order (newest first). -/
def featureLevels : List FeatureLevel :=
  [FeatureLevel.fl11_1, FeatureLevel.fl11_0, FeatureLevel.fl10_1, FeatureLevel.fl10_0]

/-- Numeric value of `DXGI_FORMAT_R8G8B8A8_UNORM`. -/
def DXGI_FORMAT_R8G8B8A8_UNORM : Nat := 28

/-- Numeric value of `DXGI_USAGE_RENDER_TARGET_OUTPUT`. -/
def DXGI_USAGE_RENDER_TARGET_OUTPUT : Nat := 32

/-- Numeric value of `DXGI_MWA_NO_ALT_ENTER`. -/
def DXGI_MWA_NO_ALT_ENTER : Nat := 2

/-- Description `DXGI_SWAP_CHAIN_DESC1` as filled in by the DirectX-11.1 path of
`InitDevice` (zero-initialized fields other than the ones set are omitted). -/
structure SwapChainDesc1 where
  width : Nat
  height : Nat
  format : Nat
  sampleCount : Nat
  sampleQuality : Nat
  bufferUsage : Nat
  bufferCount : Nat
deriving DecidableEq, Repr

/-- Description `DXGI_SWAP_CHAIN_DESC` as filled in by the DirectX-11.0 path of
`InitDevice`. -/
structure SwapChainDesc where
  bufferCount : Nat
  width : Nat
  height : Nat
  format : Nat
  refreshRateNumerator : Nat
  refreshRateDenominator : Nat
  bufferUsage : Nat
  outputWindow : Nat
  sampleCount : Nat
  sampleQuality : Nat
  windowed : Bool
deriving DecidableEq, Repr

/-- Viewport `D3D11_VIEWPORT`; the source stores the `UINT` window size and the exact
float constants 0.0f / 1.0f, all represented exactly by naturals here. -/
structure Viewport where
  topLeftX : Nat
  topLeftY : Nat
  width : Nat
  height : Nat
  minDepth : Nat
  maxDepth : Nat
deriving DecidableEq, Repr

/-- Outcomes of the platform calls made by `InitDevice` and `Render`,
one field per call site. -/
structure Env where
  /-- Result of `GetClientRect`: client-area (width, height). -/
  clientRect : Nat × Nat
  /-- Outcome of `D3D11CreateDevice` for a driver type and feature-level list. -/
  createDevice : DriverType → List FeatureLevel → HRESULT
  /-- Outcome of `m_pDevice->QueryInterface(IDXGIDevice)`. -/
  queryDXGIDevice : HRESULT
  /-- Outcome of `dxgiDevice->GetAdapter`. -/
  getAdapter : HRESULT
  /-- Outcome of `adapter->GetParent(IDXGIFactory1)`. -/
  getParentFactory : HRESULT
  /-- Outcome of `dxgiFactory->QueryInterface(IDXGIFactory2)`; the source tests the out
  pointer `dxgiFactory2`, non-null exactly when this call succeeded. -/
  queryFactory2 : HRESULT
  /-- Outcome of `m_pDevice->QueryInterface(ID3D11Device1)`. -/
  queryDevice1 : HRESULT
  /-- Outcome of `m_pImmediateContext->QueryInterface(ID3D11DeviceContext1)`. -/
  queryContext1 : HRESULT
  /-- Outcome of `dxgiFactory2->CreateSwapChainForHwnd`. -/
  createSwapChainForHwnd : HRESULT
  /-- Outcome of `m_pSwapChain1->QueryInterface(IDXGISwapChain)`. -/
  querySwapChainLegacy : HRESULT
  /-- Outcome of `dxgiFactory->CreateSwapChain`. -/
  createSwapChainLegacy : HRESULT
  /-- Outcome of `m_pSwapChain->GetBuffer(0, ID3D11Texture2D)`. -/
  getBuffer : HRESULT
  /-- Outcome of `m_pDevice->CreateRenderTargetView`. -/
  createRTV : HRESULT
  /-- Outcome of `m_pSwapChain->Present` (its HRESULT is discarded by `Render`). -/
  presentHr : HRESULT

/-- Liveness (non-nullness) of the `Renderer` member pointers, plus the
`m_driverType` member. -/
structure RendererState where
  driverType : Option DriverType
  device : Bool
  device1 : Bool
  immediateContext : Bool
  immediateContext1 : Bool
  swapChain : Bool
  swapChain1 : Bool
  renderTargetView : Bool
deriving DecidableEq, Repr

/-- Observable platform effects of a run of `InitDevice`, in call order. -/
inductive InitEvent
  | getClientRect (w h : Nat)
  | createDeviceAttempt (dt : DriverType) (fls : List FeatureLevel)
  | releaseAdapter
  | releaseDXGIDevice
  | createSwapChainForHwnd (sd : SwapChainDesc1) (hWnd : Nat)
  | releaseFactory2
  | createSwapChainLegacy (sd : SwapChainDesc)
  | makeWindowAssociation (hWnd flags : Nat)
  | releaseFactory
  | getBuffer
  | releaseBackBuffer
  | setRenderTargets (n : Nat)
  | setViewports (vps : List Viewport)
deriving DecidableEq, Repr

/-- One driver-type iteration of the creation loop (lines 100-109): call
`D3D11CreateDevice` with the full feature-level list; if it returns exactly
`E_INVALIDARG`, retry once with the topmost feature level removed. -/
def attemptCreate (create : DriverType → List FeatureLevel → HRESULT)
    (dt : DriverType) : HRESULT × List InitEvent :=
  let hr := create dt featureLevels
  if hr = E_INVALIDARG then
    (create dt featureLevels.tail,
      [InitEvent.createDeviceAttempt dt featureLevels,
       InitEvent.createDeviceAttempt dt featureLevels.tail])
  else
    (hr, [InitEvent.createDeviceAttempt dt featureLevels])

/-- Result of the driver-type loop: final `hr`, final `m_driverType`, and
the `D3D11CreateDevice` calls performed. -/
structure LoopResult where
  hr : HRESULT
  driverType : Option DriverType
  events : List InitEvent
deriving Repr

/-- The driver-type loop of `InitDevice` (lines 97-115): iterate the driver
types in order, setting `m_driverType` before each attempt, and break on the
first attempt (including its `E_INVALIDARG` retry) that succeeds. -/
def deviceLoop (create : DriverType → List FeatureLevel → HRESULT) :
    List DriverType → HRESULT → Option DriverType → LoopResult
  | [], hr, dt => ⟨hr, dt, []⟩
  | d :: rest, _, _ =>
    let a := attemptCreate create d
    if SUCCEEDED a.1 then ⟨a.1, some d, a.2⟩
    else
      let r := deviceLoop create rest a.1 (some d)
      ⟨r.hr, r.driverType, a.2 ++ r.events⟩

/-- Final `hr` of the DXGI-factory acquisition chain (lines 123-141):
device → IDXGIDevice → adapter → IDXGIFactory1, each step only attempted
if the previous one succeeded. -/
def factoryChainHr (env : Env) : HRESULT :=
  if SUCCEEDED env.queryDXGIDevice then
    if SUCCEEDED env.getAdapter then env.getParentFactory
    else env.getAdapter
  else env.queryDXGIDevice

/-- Release effects of the factory acquisition chain: `adapter->Release()`
exactly when the adapter was obtained, then `dxgiDevice->Release()` exactly
when the DXGI device was obtained. -/
def factoryChainEvents (env : Env) : List InitEvent :=
  if SUCCEEDED env.queryDXGIDevice then
    (if SUCCEEDED env.getAdapter then [InitEvent.releaseAdapter] else []) ++
      [InitEvent.releaseDXGIDevice]
  else []

/-- The value of `hr` right after the swap-chain stage (line 204's check):
on the DirectX-11.1 path it is `CreateSwapChainForHwnd`'s result, replaced by
the `IDXGISwapChain` `QueryInterface` result when creation succeeded; on the
DirectX-11.0 path it is `CreateSwapChain`'s result. -/
def swapStageHr (env : Env) : HRESULT :=
  if SUCCEEDED env.queryFactory2 then
    if SUCCEEDED env.createSwapChainForHwnd then env.querySwapChainLegacy
    else env.createSwapChainForHwnd
  else env.createSwapChainLegacy

/-- The back-buffer / render-target-view / viewport stage (lines 204-238),
entered with the swap-chain stage's `hr`: check it, then `GetBuffer`,
`CreateRenderTargetView`, `pBackBuffer->Release()` before the `hr` check,
then `OMSetRenderTargets` and `RSSetViewports`.  Returns the final `hr`,
the liveness of `m_pRenderTargetView`, and the events of this stage. -/
def backBufferStage (getBufferHr createRTVHr : HRESULT) (w h : Nat)
    (hr : HRESULT) : HRESULT × Bool × List InitEvent :=
  if FAILED hr then (hr, false, [])
  else if FAILED getBufferHr then (getBufferHr, false, [InitEvent.getBuffer])
  else if FAILED createRTVHr then
    (createRTVHr, SUCCEEDED createRTVHr,
      [InitEvent.getBuffer, InitEvent.releaseBackBuffer])
  else
    (S_OK, SUCCEEDED createRTVHr,
      [InitEvent.getBuffer, InitEvent.releaseBackBuffer,
       InitEvent.setRenderTargets 1,
       InitEvent.setViewports [⟨0, 0, w, h, 0, 1⟩]])

/-- Result of `InitDevice`: returned HRESULT, final member state, events. -/
structure InitResult where
  hr : HRESULT
  state : RendererState
  events : List InitEvent
deriving Repr

/-- Function `Renderer::InitDevice` (lines 67-239). -/
def initDevice (env : Env) (hWnd : Nat) : InitResult :=
  let w := env.clientRect.1
  let h := env.clientRect.2
  let L := deviceLoop env.createDevice driverTypes S_OK none
  let s1 : RendererState :=
    ⟨L.driverType, SUCCEEDED L.hr, false, SUCCEEDED L.hr, false, false, false, false⟩
  let pre := InitEvent.getClientRect w h :: L.events
  if FAILED L.hr then ⟨L.hr, s1, pre⟩
  else if FAILED (factoryChainHr env) then
    ⟨factoryChainHr env, s1, pre ++ factoryChainEvents env⟩
  else if SUCCEEDED env.queryFactory2 then
    let s2 : RendererState :=
      ⟨L.driverType, SUCCEEDED L.hr, SUCCEEDED env.queryDevice1, SUCCEEDED L.hr,
        SUCCEEDED env.queryDevice1 && SUCCEEDED env.queryContext1,
        SUCCEEDED env.createSwapChainForHwnd && SUCCEEDED env.querySwapChainLegacy,
        SUCCEEDED env.createSwapChainForHwnd, false⟩
    let evs := pre ++ factoryChainEvents env ++
      [InitEvent.createSwapChainForHwnd
          ⟨w, h, DXGI_FORMAT_R8G8B8A8_UNORM, 1, 0, DXGI_USAGE_RENDER_TARGET_OUTPUT, 1⟩
          hWnd,
       InitEvent.releaseFactory2,
       InitEvent.makeWindowAssociation hWnd DXGI_MWA_NO_ALT_ENTER,
       InitEvent.releaseFactory]
    let B := backBufferStage env.getBuffer env.createRTV w h (swapStageHr env)
    ⟨B.1,
      ⟨s2.driverType, s2.device, s2.device1, s2.immediateContext, s2.immediateContext1,
        s2.swapChain, s2.swapChain1, B.2.1⟩,
      evs ++ B.2.2⟩
  else
    let s2 : RendererState :=
      ⟨L.driverType, SUCCEEDED L.hr, false, SUCCEEDED L.hr, false,
        SUCCEEDED env.createSwapChainLegacy, false, false⟩
    let evs := pre ++ factoryChainEvents env ++
      [InitEvent.createSwapChainLegacy
          ⟨1, w, h, DXGI_FORMAT_R8G8B8A8_UNORM, 60, 1,
            DXGI_USAGE_RENDER_TARGET_OUTPUT, hWnd, 1, 0, true⟩,
       InitEvent.makeWindowAssociation hWnd DXGI_MWA_NO_ALT_ENTER,
       InitEvent.releaseFactory]
    let B := backBufferStage env.getBuffer env.createRTV w h (swapStageHr env)
    ⟨B.1,
      ⟨s2.driverType, s2.device, s2.device1, s2.immediateContext, s2.immediateContext1,
        s2.swapChain, s2.swapChain1, B.2.1⟩,
      evs ++ B.2.2⟩

/-- RGBA color; `DirectX::Colors::MidnightBlue`'s float components are the
sRGB bytes (25, 25, 112, 255) over 255, represented exactly as rationals. -/
structure Color where
  r : Rat
  g : Rat
  b : Rat
  a : Rat
deriving DecidableEq, Repr

def midnightBlue : Color := ⟨25/255, 25/255, 112/255, 1⟩

/-- Observable effects of `Renderer::Render`. -/
inductive RenderEvent
  | clearRenderTargetView (c : Color)
  | present (syncInterval flags : Nat)
deriving DecidableEq, Repr

/-- Function `Renderer::Render` (lines 241-246): clear the back buffer to
`MidnightBlue`, then `Present(0, 0)`; the `Present` HRESULT of the
environment is discarded and nothing is returned. -/
def render (_env : Env) (_s : RendererState) : List RenderEvent :=
  [RenderEvent.clearRenderTargetView midnightBlue, RenderEvent.present 0 0]

/-- The resources released by `CleanupDevice`, one per member pointer. -/
inductive Resource
  | renderTargetView
  | swapChain
  | swapChain1
  | immediateContext
  | immediateContext1
  | device
  | device1
deriving DecidableEq, Repr

/-- Observable effects of `Renderer::CleanupDevice`. -/
inductive CleanupEvent
  | clearState
  | release (r : Resource)
deriving DecidableEq, Repr

/-- Liveness of a given resource in the member state. -/
def resLive (s : RendererState) : Resource → Bool
  | Resource.renderTargetView => s.renderTargetView
  | Resource.swapChain => s.swapChain
  | Resource.swapChain1 => s.swapChain1
  | Resource.immediateContext => s.immediateContext
  | Resource.immediateContext1 => s.immediateContext1
  | Resource.device => s.device
  | Resource.device1 => s.device1

/-- Function `Renderer::CleanupDevice` (lines 248-289): `ClearState` if the context is
non-null, then `Release()` each non-null member in source order.  The source
never assigns the member pointers afterwards, so the member state is returned
unchanged. -/
def cleanupDevice (s : RendererState) : RendererState × List CleanupEvent :=
  (s,
    (if s.immediateContext then [CleanupEvent.clearState] else []) ++
    (if s.renderTargetView then [CleanupEvent.release Resource.renderTargetView] else []) ++
    (if s.swapChain then [CleanupEvent.release Resource.swapChain] else []) ++
    (if s.swapChain1 then [CleanupEvent.release Resource.swapChain1] else []) ++
    (if s.immediateContext then [CleanupEvent.release Resource.immediateContext] else []) ++
    (if s.immediateContext1 then [CleanupEvent.release Resource.immediateContext1] else []) ++
    (if s.device then [CleanupEvent.release Resource.device] else []) ++
    (if s.device1 then [CleanupEvent.release Resource.device1] else []))

/-- Number of `Release()` calls on a given resource in a cleanup trace. -/
def releaseCount (evs : List CleanupEvent) (r : Resource) : Nat :=
  evs.countP fun e => decide (e = CleanupEvent.release r)

/-- The trace of calling `CleanupDevice` twice in a row from a state. -/
def cleanupTwiceEvents (s : RendererState) : List CleanupEvent :=
  (cleanupDevice s).2 ++ (cleanupDevice (cleanupDevice s).1).2

/-! ### Derived notions used in the statements -/

/-- Final `hr` of one driver-type iteration (attempt plus possible retry). -/
def attemptHr (env : Env) (dt : DriverType) : HRESULT :=
  (attemptCreate env.createDevice dt).1

/-- Whether one driver-type iteration succeeds. -/
def attemptOk (env : Env) (dt : DriverType) : Bool := SUCCEEDED (attemptHr env dt)

/-- Whether an event is a `D3D11CreateDevice` call for the given driver type. -/
def isAttemptOf (dt : DriverType) : InitEvent → Bool
  | InitEvent.createDeviceAttempt d _ => d == dt
  | _ => false

/-- Whether a trace contains a `D3D11CreateDevice` call for the driver type. -/
def dtAttempted (evs : List InitEvent) (dt : DriverType) : Bool :=
  evs.any (isAttemptOf dt)

/-- Whether an event is the `GetClientRect` call. -/
def isGetClientRect : InitEvent → Bool
  | InitEvent.getClientRect _ _ => true
  | _ => false

/-- Whether an event is an `RSSetViewports` call. -/
def isSetViewports : InitEvent → Bool
  | InitEvent.setViewports _ => true
  | _ => false

/-- Number of occurrences of one event in a trace. -/
def countEvent (evs : List InitEvent) (e : InitEvent) : Nat :=
  evs.countP fun x => decide (x = e)

/-- The environment with the two best-effort v1-upgrade outcomes replaced and
every other call outcome kept. -/
def setUpgrades (env : Env) (q1 q2 : HRESULT) : Env :=
  ⟨env.clientRect, env.createDevice, env.queryDXGIDevice, env.getAdapter,
    env.getParentFactory, env.queryFactory2, q1, q2, env.createSwapChainForHwnd,
    env.querySwapChainLegacy, env.createSwapChainLegacy, env.getBuffer,
    env.createRTV, env.presentHr⟩

/-- The environment with the `Present` outcome replaced. -/
def setPresentHr (env : Env) (p : HRESULT) : Env :=
  ⟨env.clientRect, env.createDevice, env.queryDXGIDevice, env.getAdapter,
    env.getParentFactory, env.queryFactory2, env.queryDevice1, env.queryContext1,
    env.createSwapChainForHwnd, env.querySwapChainLegacy, env.createSwapChainLegacy,
    env.getBuffer, env.createRTV, p⟩

/-- Environment in which every platform call succeeds, window 1280×720. -/
def envAll : Env :=
  ⟨(1280, 720), fun _ _ => S_OK, S_OK, S_OK, S_OK, S_OK, S_OK, S_OK, S_OK, S_OK,
    S_OK, S_OK, S_OK, S_OK⟩

/-- Environment of a DirectX-11.0-era host: the hardware driver rejects the
full feature-level list with `E_INVALIDARG` but accepts the trimmed one;
every other call succeeds. -/
def envRetry : Env :=
  ⟨(1280, 720),
    fun dt fls =>
      if dt = DriverType.hardware then
        (if fls = featureLevels then E_INVALIDARG else S_OK)
      else E_FAIL,
    S_OK, S_OK, S_OK, S_OK, S_OK, S_OK, S_OK, S_OK, S_OK, S_OK, S_OK, S_OK⟩

/-- Member state in which every resource pointer is non-null. -/
def allLive : RendererState :=
  ⟨some DriverType.hardware, true, true, true, true, true, true, true⟩

/-! ### Basic lemmas -/

lemma succeeded_of_failed_false {hr : HRESULT} (h : FAILED hr = false) :
    SUCCEEDED hr = true := by
  simp only [FAILED, decide_eq_false_iff_not, not_lt] at h
  simpa [SUCCEEDED] using h

lemma ne_sok_of_failed {hr : HRESULT} (h : FAILED hr = true) : hr ≠ S_OK := by
  intro he
  rw [he] at h
  simp [FAILED, S_OK] at h

lemma mem_attemptCreate_events {create : DriverType → List FeatureLevel → HRESULT}
    {dt : DriverType} {e : InitEvent} (h : e ∈ (attemptCreate create dt).2) :
    ∃ fls, e = InitEvent.createDeviceAttempt dt fls := by
  by_cases hc : create dt featureLevels = E_INVALIDARG <;>
    simp [attemptCreate, hc] at h
  · rcases h with h | h <;> exact ⟨_, h⟩
  · exact ⟨_, h⟩

lemma mem_deviceLoop_events {create : DriverType → List FeatureLevel → HRESULT} :
    ∀ (dts : List DriverType) (hr0 : HRESULT) (dt0 : Option DriverType)
      (e : InitEvent), e ∈ (deviceLoop create dts hr0 dt0).events →
      ∃ d fls, d ∈ dts ∧ e = InitEvent.createDeviceAttempt d fls
  | [], hr0, dt0, e, h => by simp [deviceLoop] at h
  | d :: rest, hr0, dt0, e, h => by
    simp only [deviceLoop] at h
    split at h
    · obtain ⟨fls, hf⟩ := mem_attemptCreate_events h
      exact ⟨d, fls, by simp, hf⟩
    · simp only [List.mem_append] at h
      rcases h with h | h
      · obtain ⟨fls, hf⟩ := mem_attemptCreate_events h
        exact ⟨d, fls, by simp, hf⟩
      · obtain ⟨d', fls, hd, hf⟩ := mem_deviceLoop_events rest _ _ e h
        exact ⟨d', fls, by simp [hd], hf⟩

lemma mem_factoryChainEvents {env : Env} {e : InitEvent}
    (h : e ∈ factoryChainEvents env) :
    e = InitEvent.releaseAdapter ∨ e = InitEvent.releaseDXGIDevice := by
  unfold factoryChainEvents at h
  split at h
  · split at h <;> simp at h <;> tauto
  · simp at h

lemma mem_backBufferStage_events {g c : HRESULT} {w h : Nat} {hr : HRESULT}
    {e : InitEvent} (hm : e ∈ (backBufferStage g c w h hr).2.2) :
    e = InitEvent.getBuffer ∨ e = InitEvent.releaseBackBuffer ∨
    e = InitEvent.setRenderTargets 1 ∨
    e = InitEvent.setViewports [⟨0, 0, w, h, 0, 1⟩] := by
  by_cases h1 : FAILED hr = true
  · simp [backBufferStage, h1] at hm
  · by_cases h2 : FAILED g = true
    · simp [backBufferStage, h1, h2] at hm
      tauto
    · by_cases h3 : FAILED c = true <;>
        simp [backBufferStage, h1, h2, h3] at hm <;> tauto

lemma countP_eq_zero_of_forbid {α : Type} {p : α → Bool} {l : List α}
    (h : ∀ e ∈ l, p e = false) : l.countP p = 0 := by
  rw [List.countP_eq_zero]
  intro a ha
  simp [h a ha]

lemma countP_if_single {α : Type} (p : α → Bool) (b : Bool) (x : α) :
    (if b then [x] else []).countP p = if b then (if p x then 1 else 0) else 0 := by
  cases b <;> simp [List.countP_cons]

lemma mem_if_single_iff {α : Type} (e x : α) (b : Bool) :
    (e ∈ (if b then [x] else [])) ↔ (b = true ∧ e = x) := by
  cases b <;> simp

lemma countP_deviceLoop_zero (create : DriverType → List FeatureLevel → HRESULT)
    (dts : List DriverType) (hr0 : HRESULT) (dt0 : Option DriverType)
    (p : InitEvent → Bool)
    (hp : ∀ d fls, p (InitEvent.createDeviceAttempt d fls) = false) :
    ((deviceLoop create dts hr0 dt0).events).countP p = 0 :=
  countP_eq_zero_of_forbid fun e he => by
    obtain ⟨d, fls, _, hf⟩ := mem_deviceLoop_events dts hr0 dt0 e he
    rw [hf]
    exact hp d fls

lemma countP_factoryChainEvents_zero (env : Env) (p : InitEvent → Bool)
    (hp1 : p InitEvent.releaseAdapter = false)
    (hp2 : p InitEvent.releaseDXGIDevice = false) :
    (factoryChainEvents env).countP p = 0 :=
  countP_eq_zero_of_forbid fun e he => by
    rcases mem_factoryChainEvents he with h | h <;> rw [h] <;> assumption

lemma not_mem_deviceLoop {create : DriverType → List FeatureLevel → HRESULT}
    (dts : List DriverType) (hr0 : HRESULT) (dt0 : Option DriverType) {e : InitEvent}
    (he : ∀ d fls, e ≠ InitEvent.createDeviceAttempt d fls) :
    e ∉ (deviceLoop create dts hr0 dt0).events := fun h => by
  obtain ⟨d, fls, _, hf⟩ := mem_deviceLoop_events dts hr0 dt0 e h
  exact he d fls hf

/-! ### C1 — `CleanupDevice` idempotency -/

/-- C1: counterexample.  The claim says calling `CleanupDevice` twice in a
row never releases any given resource more than once.  On a fully
initialized bundle the source releases every member again on the second
call, because the member pointers are never reset to null after `Release()`:
the device is released twice. -/
theorem c1_cleanup_counterexample :
    ¬ (releaseCount (cleanupTwiceEvents allLive) Resource.device ≤ 1) := by decide

/-- C1 (amended): a single call to `CleanupDevice`, on any bundle including
partially-initialized ones, is safe: every `Release()` is guarded by a
non-null check, so each resource is released exactly once if live and never
if null.  But the call leaves the member pointers unchanged (the source
never nulls them), which is why a second call is not safe. -/
theorem c1_cleanup_single_call_safe (s : RendererState) (r : Resource) :
    releaseCount (cleanupDevice s).2 r = (if resLive s r then 1 else 0) ∧
    (CleanupEvent.release r ∈ (cleanupDevice s).2 → resLive s r = true) ∧
    (cleanupDevice s).1 = s := by
  refine ⟨?_, ?_, rfl⟩
  · cases r <;>
      simp [cleanupDevice, releaseCount, resLive, List.countP_append, countP_if_single]
  · intro hm
    simp only [cleanupDevice, List.mem_append, mem_if_single_iff] at hm
    cases r <;> simp_all [resLive]

/-- C1 witness: on the fully-live bundle one call releases the device
exactly once and the guard holds. -/
theorem c1_cleanup_single_call_safe_witness :
    releaseCount (cleanupDevice allLive).2 Resource.device = 1 := by
  have h := (c1_cleanup_single_call_safe allLive Resource.device).1
  simpa [resLive, allLive] using h

/-! ### C2 — `E_INVALIDARG` feature-level retry -/

/-- C2: for any driver type at the head of the remaining attempt loop, if
`D3D11CreateDevice` with the full feature-level list returns exactly
`E_INVALIDARG`, the loop retries the same driver type with the topmost
feature level removed (the list tail), and if that retry succeeds the loop
stops there: the result records that driver type and contains no attempt of
any later driver type. -/
theorem c2_invalidarg_retry (env : Env) (dt : DriverType) (rest : List DriverType)
    (hr0 : HRESULT) (dt0 : Option DriverType)
    (hfull : env.createDevice dt featureLevels = E_INVALIDARG)
    (hretry : SUCCEEDED (env.createDevice dt featureLevels.tail) = true) :
    deviceLoop env.createDevice (dt :: rest) hr0 dt0 =
      ⟨env.createDevice dt featureLevels.tail, some dt,
        [InitEvent.createDeviceAttempt dt featureLevels,
         InitEvent.createDeviceAttempt dt featureLevels.tail]⟩ ∧
    featureLevels.tail =
      [FeatureLevel.fl11_0, FeatureLevel.fl10_1, FeatureLevel.fl10_0] := by
  constructor
  · simp only [deviceLoop]
    simp [attemptCreate, hfull, hretry]
  · rfl

/-- C2 witness: on a host whose hardware driver rejects the full list with
`E_INVALIDARG` and accepts the trimmed one, the loop succeeds at the
hardware driver type without advancing. -/
theorem c2_invalidarg_retry_witness :
    deviceLoop envRetry.createDevice
        (DriverType.hardware :: [DriverType.warp, DriverType.reference]) S_OK none =
      ⟨envRetry.createDevice DriverType.hardware featureLevels.tail,
        some DriverType.hardware,
        [InitEvent.createDeviceAttempt DriverType.hardware featureLevels,
         InitEvent.createDeviceAttempt DriverType.hardware featureLevels.tail]⟩ :=
  (c2_invalidarg_retry envRetry DriverType.hardware
    [DriverType.warp, DriverType.reference] S_OK none (by decide) (by decide)).1

/-! ### C7 — `Render` clears once and presents once -/

/-- C7: every call to `Render` performs exactly one clear of the render
target, to the fixed constant color `MidnightBlue`, followed by exactly one
`Present` with sync interval 0 and flags 0; it returns nothing, and the
`Present` HRESULT of the platform never influences the call's behavior. -/
theorem c7_render_clear_then_present (env : Env) (s : RendererState) (p : HRESULT) :
    render env s =
      [RenderEvent.clearRenderTargetView midnightBlue, RenderEvent.present 0 0] ∧
    ((render env s).countP fun e => decide (e = RenderEvent.present 0 0)) = 1 ∧
    ((render env s).countP fun e =>
      match e with
      | RenderEvent.clearRenderTargetView _ => true
      | _ => false) = 1 ∧
    render (setPresentHr env p) s = render env s := by
  refine ⟨rfl, ?_, ?_, rfl⟩ <;> rfl

/-! ### C6 — best-effort v1 upgrades -/

/-- C6: on the newer swap-chain path (per-window factory available), the
`ID3D11Device1` / `ID3D11DeviceContext1` upgrade queries are best-effort:
replacing their two outcomes by any HRESULTs (in particular failures)
changes neither the HRESULT returned by `InitDevice` nor its platform-effect
trace, and swap-chain creation via `CreateSwapChainForHwnd` still happens. -/
theorem c6_upgrade_best_effort (env : Env) (hWnd : Nat) (q1 q2 : HRESULT)
    (hLoop : FAILED (deviceLoop env.createDevice driverTypes S_OK none).hr = false)
    (hFac : FAILED (factoryChainHr env) = false)
    (hF2 : SUCCEEDED env.queryFactory2 = true) :
    (initDevice (setUpgrades env q1 q2) hWnd).hr = (initDevice env hWnd).hr ∧
    (initDevice (setUpgrades env q1 q2) hWnd).events = (initDevice env hWnd).events ∧
    InitEvent.createSwapChainForHwnd
        ⟨env.clientRect.1, env.clientRect.2, DXGI_FORMAT_R8G8B8A8_UNORM, 1, 0,
          DXGI_USAGE_RENDER_TARGET_OUTPUT, 1⟩ hWnd ∈
      (initDevice (setUpgrades env q1 q2) hWnd).events := by
  have hcd : (setUpgrades env q1 q2).createDevice = env.createDevice := rfl
  have hcr : (setUpgrades env q1 q2).clientRect = env.clientRect := rfl
  have hfc : factoryChainHr (setUpgrades env q1 q2) = factoryChainHr env := rfl
  have hfe : factoryChainEvents (setUpgrades env q1 q2) = factoryChainEvents env := rfl
  have hss : swapStageHr (setUpgrades env q1 q2) = swapStageHr env := rfl
  have hf2x : (setUpgrades env q1 q2).queryFactory2 = env.queryFactory2 := rfl
  have hgb : (setUpgrades env q1 q2).getBuffer = env.getBuffer := rfl
  have hcv : (setUpgrades env q1 q2).createRTV = env.createRTV := rfl
  have hsw : (setUpgrades env q1 q2).createSwapChainForHwnd =
      env.createSwapChainForHwnd := rfl
  have hq : (setUpgrades env q1 q2).querySwapChainLegacy =
      env.querySwapChainLegacy := rfl
  refine ⟨?_, ?_, ?_⟩ <;>
    simp [initDevice, hcd, hcr, hfc, hfe, hss, hf2x, hgb, hcv, hsw, hq,
      hLoop, hFac, hF2]

/-! ### C9 — Alt+Enter association and factory release precede the check -/

/-- C9: whenever `InitDevice` reaches the swap-chain-creation stage (device
loop and DXGI-factory chain both succeeded), the `MakeWindowAssociation`
call disabling Alt+Enter and the factory `Release()` are in the trace
regardless of the swap-chain creation outcome; in particular they occur
even when swap-chain creation failed, in which case `InitDevice` returns
that failing HRESULT. -/
theorem c9_association_and_release_always (env : Env) (hWnd : Nat)
    (hLoop : FAILED (deviceLoop env.createDevice driverTypes S_OK none).hr = false)
    (hFac : FAILED (factoryChainHr env) = false) :
    InitEvent.makeWindowAssociation hWnd DXGI_MWA_NO_ALT_ENTER ∈
        (initDevice env hWnd).events ∧
    InitEvent.releaseFactory ∈ (initDevice env hWnd).events ∧
    (FAILED (swapStageHr env) = true →
      (initDevice env hWnd).hr = swapStageHr env ∧
      FAILED (initDevice env hWnd).hr = true) := by
  by_cases hF2 : SUCCEEDED env.queryFactory2 = true
  · refine ⟨?_, ?_, fun hsf => ?_⟩ <;>
      simp [initDevice, hLoop, hFac, hF2, backBufferStage, *]
  · rw [Bool.not_eq_true] at hF2
    refine ⟨?_, ?_, fun hsf => ?_⟩ <;>
      simp [initDevice, hLoop, hFac, hF2, backBufferStage, *]

/-- C6 witness: concrete all-success environment with both upgrades failing. -/
theorem c6_upgrade_best_effort_witness :
    (initDevice (setUpgrades envAll E_FAIL E_FAIL) 7).hr = (initDevice envAll 7).hr :=
  (c6_upgrade_best_effort envAll 7 E_FAIL E_FAIL (by decide) (by decide) (by decide)).1

/-- C9 witness: concrete all-success environment. -/
theorem c9_association_and_release_always_witness :
    InitEvent.makeWindowAssociation 9 DXGI_MWA_NO_ALT_ENTER ∈
      (initDevice envAll 9).events :=
  (c9_association_and_release_always envAll 9 (by decide) (by decide)).1

/-! ### Success characterization of `InitDevice` -/

lemma initDevice_hr_ok (env : Env) (hWnd : Nat)
    (h : (initDevice env hWnd).hr = S_OK) :
    FAILED (deviceLoop env.createDevice driverTypes S_OK none).hr = false ∧
    FAILED (factoryChainHr env) = false ∧
    FAILED (swapStageHr env) = false ∧
    FAILED env.getBuffer = false ∧
    FAILED env.createRTV = false := by
  by_cases h1 : FAILED (deviceLoop env.createDevice driverTypes S_OK none).hr = true
  · exfalso
    have hh : (initDevice env hWnd).hr =
        (deviceLoop env.createDevice driverTypes S_OK none).hr := by
      simp [initDevice, h1]
    rw [hh] at h
    exact ne_sok_of_failed h1 h
  · rw [Bool.not_eq_true] at h1
    by_cases h2 : FAILED (factoryChainHr env) = true
    · exfalso
      have hh : (initDevice env hWnd).hr = factoryChainHr env := by
        simp [initDevice, h1, h2]
      rw [hh] at h
      exact ne_sok_of_failed h2 h
    · rw [Bool.not_eq_true] at h2
      by_cases h3 : FAILED (swapStageHr env) = true
      · exfalso
        have hh : (initDevice env hWnd).hr = swapStageHr env := by
          by_cases hF2 : SUCCEEDED env.queryFactory2 = true
          · simp [initDevice, h1, h2, hF2, backBufferStage, h3]
          · rw [Bool.not_eq_true] at hF2
            simp [initDevice, h1, h2, hF2, backBufferStage, h3]
        rw [hh] at h
        exact ne_sok_of_failed h3 h
      · rw [Bool.not_eq_true] at h3
        by_cases h4 : FAILED env.getBuffer = true
        · exfalso
          have hh : (initDevice env hWnd).hr = env.getBuffer := by
            by_cases hF2 : SUCCEEDED env.queryFactory2 = true
            · simp [initDevice, h1, h2, hF2, backBufferStage, h3, h4]
            · rw [Bool.not_eq_true] at hF2
              simp [initDevice, h1, h2, hF2, backBufferStage, h3, h4]
          rw [hh] at h
          exact ne_sok_of_failed h4 h
        · rw [Bool.not_eq_true] at h4
          by_cases h5 : FAILED env.createRTV = true
          · exfalso
            have hh : (initDevice env hWnd).hr = env.createRTV := by
              by_cases hF2 : SUCCEEDED env.queryFactory2 = true
              · simp [initDevice, h1, h2, hF2, backBufferStage, h3, h4, h5]
              · rw [Bool.not_eq_true] at hF2
                simp [initDevice, h1, h2, hF2, backBufferStage, h3, h4, h5]
            rw [hh] at h
            exact ne_sok_of_failed h5 h
          · rw [Bool.not_eq_true] at h5
            exact ⟨h1, h2, h3, h4, h5⟩

/-! ### C8 — success implies all four resources non-null -/

/-- C8: whenever `InitDevice` returns `S_OK`, the device, immediate
context, swap chain (legacy interface) and render target view are all
non-null. -/
theorem c8_success_all_nonnull (env : Env) (hWnd : Nat)
    (h : (initDevice env hWnd).hr = S_OK) :
    (initDevice env hWnd).state.device = true ∧
    (initDevice env hWnd).state.immediateContext = true ∧
    (initDevice env hWnd).state.swapChain = true ∧
    (initDevice env hWnd).state.renderTargetView = true := by
  obtain ⟨h1, h2, h3, h4, h5⟩ := initDevice_hr_ok env hWnd h
  have hd := succeeded_of_failed_false h1
  have hrtv := succeeded_of_failed_false h5
  by_cases hF2 : SUCCEEDED env.queryFactory2 = true
  · have hcs : SUCCEEDED env.createSwapChainForHwnd = true := by
      by_cases hc : SUCCEEDED env.createSwapChainForHwnd = true
      · exact hc
      · rw [Bool.not_eq_true] at hc
        have he : swapStageHr env = env.createSwapChainForHwnd := by
          simp [swapStageHr, hF2, hc]
        rw [he] at h3
        have hs := succeeded_of_failed_false h3
        simp [hs] at hc
    have hql : SUCCEEDED env.querySwapChainLegacy = true := by
      have he : swapStageHr env = env.querySwapChainLegacy := by
        simp [swapStageHr, hF2, hcs]
      rw [he] at h3
      exact succeeded_of_failed_false h3
    simp [initDevice, h1, h2, hF2, backBufferStage, h3, h4, h5, hd, hcs, hql, hrtv]
  · rw [Bool.not_eq_true] at hF2
    have hcl : SUCCEEDED env.createSwapChainLegacy = true := by
      have he : swapStageHr env = env.createSwapChainLegacy := by
        simp [swapStageHr, hF2]
      rw [he] at h3
      exact succeeded_of_failed_false h3
    simp [initDevice, h1, h2, hF2, backBufferStage, h3, h4, h5, hd, hcl, hrtv]

/-- C8 witness: all-success environment. -/
theorem c8_success_all_nonnull_witness :
    (initDevice envAll 8).state.device = true :=
  (c8_success_all_nonnull envAll 8 (by decide)).1

/-! ### C5 — viewport binding on success -/

/-- C5: when `InitDevice` returns `S_OK`, exactly one `RSSetViewports` call
occurs, and it binds the single viewport with top-left (0,0), width and
height equal to the client-area size queried at entry, and depth range
[0,1]. -/
theorem c5_viewport_binding (env : Env) (hWnd : Nat)
    (h : (initDevice env hWnd).hr = S_OK) :
    (initDevice env hWnd).events.countP isSetViewports = 1 ∧
    InitEvent.setViewports
        [⟨0, 0, env.clientRect.1, env.clientRect.2, 0, 1⟩] ∈
      (initDevice env hWnd).events := by
  obtain ⟨h1, h2, h3, h4, h5⟩ := initDevice_hr_ok env hWnd h
  have hz : ∀ (hr0 : HRESULT) (dt0 : Option DriverType),
      ((deviceLoop env.createDevice driverTypes hr0 dt0).events).countP
        isSetViewports = 0 :=
    fun hr0 dt0 => countP_deviceLoop_zero env.createDevice driverTypes hr0 dt0
      isSetViewports (fun d fls => rfl)
  have hzf : (factoryChainEvents env).countP isSetViewports = 0 :=
    countP_factoryChainEvents_zero env isSetViewports rfl rfl
  by_cases hF2 : SUCCEEDED env.queryFactory2 = true
  · constructor
    · simp [initDevice, h1, h2, hF2, backBufferStage, h3, h4, h5,
        List.countP_append, List.countP_cons, hz, hzf, isSetViewports]
    · simp [initDevice, h1, h2, hF2, backBufferStage, h3, h4, h5]
  · rw [Bool.not_eq_true] at hF2
    constructor
    · simp [initDevice, h1, h2, hF2, backBufferStage, h3, h4, h5,
        List.countP_append, List.countP_cons, hz, hzf, isSetViewports]
    · simp [initDevice, h1, h2, hF2, backBufferStage, h3, h4, h5]

/-- C5 witness: all-success environment with client size 1280×720. -/
theorem c5_viewport_binding_witness :
    InitEvent.setViewports
        [⟨0, 0, envAll.clientRect.1, envAll.clientRect.2, 0, 1⟩] ∈
      (initDevice envAll 5).events :=
  (c5_viewport_binding envAll 5 (by decide)).2

/-! ### More trace-shape helpers -/

lemma failed_of_succeeded_false {hr : HRESULT} (h : SUCCEEDED hr = false) :
    FAILED hr = true := by
  simp only [SUCCEEDED, decide_eq_false_iff_not, not_le] at h
  simpa [FAILED] using h

lemma countP_backBufferStage_zero (g c : HRESULT) (w h : Nat) (hr : HRESULT)
    (p : InitEvent → Bool)
    (hp1 : p InitEvent.getBuffer = false)
    (hp2 : p InitEvent.releaseBackBuffer = false)
    (hp3 : p (InitEvent.setRenderTargets 1) = false)
    (hp4 : p (InitEvent.setViewports [⟨0, 0, w, h, 0, 1⟩]) = false) :
    ((backBufferStage g c w h hr).2.2).countP p = 0 :=
  countP_eq_zero_of_forbid fun e he => by
    rcases mem_backBufferStage_events he with h | h | h | h <;> rw [h] <;> assumption

lemma not_mem_factoryChainEvents {env : Env} {e : InitEvent}
    (h1 : e ≠ InitEvent.releaseAdapter) (h2 : e ≠ InitEvent.releaseDXGIDevice) :
    e ∉ factoryChainEvents env := fun hm => by
  rcases mem_factoryChainEvents hm with h | h
  · exact h1 h
  · exact h2 h

lemma not_mem_backBufferStage {g c : HRESULT} {w h : Nat} {hr : HRESULT}
    {e : InitEvent}
    (h1 : e ≠ InitEvent.getBuffer) (h2 : e ≠ InitEvent.releaseBackBuffer)
    (h3 : e ≠ InitEvent.setRenderTargets 1)
    (h4 : e ≠ InitEvent.setViewports [⟨0, 0, w, h, 0, 1⟩]) :
    e ∉ (backBufferStage g c w h hr).2.2 := fun hm => by
  rcases mem_backBufferStage_events hm with h | h | h | h
  · exact h1 h
  · exact h2 h
  · exact h3 h
  · exact h4 h

/-! ### C4 — swap-chain creation path selection -/

/-- C4: the swap-chain creation path is selected on availability of the
`IDXGIFactory2` capability.  When available, exactly one
`CreateSwapChainForHwnd` call is made, with a description sized to the
window client area, 8-bit RGBA format, single-sampled, render-target usage
and buffer count 1, and no legacy-path creation call happens; the created
chain is adapted to the legacy `IDXGISwapChain` interface (the legacy
handle is live exactly when both creation and the adapting query succeed).
When unavailable, exactly one legacy `CreateSwapChain` call is made, with
buffer count 1, the same size and format, a 60/1 refresh-rate hint,
windowed mode `TRUE` and the window handle as output window, and no
per-window-path call happens. -/
theorem c4_swapchain_path_selection (env : Env) (hWnd : Nat)
    (hLoop : FAILED (deviceLoop env.createDevice driverTypes S_OK none).hr = false)
    (hFac : FAILED (factoryChainHr env) = false) :
    (SUCCEEDED env.queryFactory2 = true →
      countEvent (initDevice env hWnd).events
          (InitEvent.createSwapChainForHwnd
            ⟨env.clientRect.1, env.clientRect.2, DXGI_FORMAT_R8G8B8A8_UNORM, 1, 0,
              DXGI_USAGE_RENDER_TARGET_OUTPUT, 1⟩ hWnd) = 1 ∧
      (∀ sd, InitEvent.createSwapChainLegacy sd ∉ (initDevice env hWnd).events) ∧
      (initDevice env hWnd).state.swapChain1 = SUCCEEDED env.createSwapChainForHwnd ∧
      (initDevice env hWnd).state.swapChain =
        (SUCCEEDED env.createSwapChainForHwnd &&
          SUCCEEDED env.querySwapChainLegacy)) ∧
    (SUCCEEDED env.queryFactory2 = false →
      countEvent (initDevice env hWnd).events
          (InitEvent.createSwapChainLegacy
            ⟨1, env.clientRect.1, env.clientRect.2, DXGI_FORMAT_R8G8B8A8_UNORM, 60, 1,
              DXGI_USAGE_RENDER_TARGET_OUTPUT, hWnd, 1, 0, true⟩) = 1 ∧
      (∀ sd hw, InitEvent.createSwapChainForHwnd sd hw ∉ (initDevice env hWnd).events) ∧
      (initDevice env hWnd).state.swapChain = SUCCEEDED env.createSwapChainLegacy) := by
  constructor
  · intro hF2
    refine ⟨?_, ?_, ?_, ?_⟩
    · have hzL := countP_deviceLoop_zero env.createDevice driverTypes S_OK
        none (fun x => decide (x = InitEvent.createSwapChainForHwnd
          ⟨env.clientRect.1, env.clientRect.2, DXGI_FORMAT_R8G8B8A8_UNORM, 1, 0,
            DXGI_USAGE_RENDER_TARGET_OUTPUT, 1⟩ hWnd)) (fun d fls => by simp)
      have hzF := countP_factoryChainEvents_zero env
        (fun x => decide (x = InitEvent.createSwapChainForHwnd
          ⟨env.clientRect.1, env.clientRect.2, DXGI_FORMAT_R8G8B8A8_UNORM, 1, 0,
            DXGI_USAGE_RENDER_TARGET_OUTPUT, 1⟩ hWnd)) (by simp) (by simp)
      have hzB := countP_backBufferStage_zero env.getBuffer env.createRTV
        env.clientRect.1 env.clientRect.2 (swapStageHr env)
        (fun x => decide (x = InitEvent.createSwapChainForHwnd
          ⟨env.clientRect.1, env.clientRect.2, DXGI_FORMAT_R8G8B8A8_UNORM, 1, 0,
            DXGI_USAGE_RENDER_TARGET_OUTPUT, 1⟩ hWnd)) (by simp) (by simp) (by simp)
        (by simp)
      simp [initDevice, hLoop, hFac, hF2, countEvent, List.countP_append,
        List.countP_cons, hzL, hzF, hzB]
    · intro sd hmem
      simp only [initDevice, hLoop, hFac, hF2, Bool.false_eq_true, if_false, if_true,
        List.mem_append, List.mem_cons, List.mem_singleton] at hmem
      rcases hmem with ((h | h) | h) | h
      · rcases h with h | h
        · exact absurd h (by simp)
        · obtain ⟨d, fls, _, hf⟩ := mem_deviceLoop_events _ _ _ _ h
          exact absurd hf (by simp)
      · exact absurd h (not_mem_factoryChainEvents (by simp) (by simp))
      · rcases h with h | h | h | h <;> exact absurd h (by simp)
      · exact absurd h (not_mem_backBufferStage (by simp) (by simp) (by simp) (by simp))
    · simp [initDevice, hLoop, hFac, hF2]
    · simp [initDevice, hLoop, hFac, hF2]
  · intro hF2
    rw [← Bool.not_eq_true] at hF2
    refine ⟨?_, ?_, ?_⟩
    · have hzL := countP_deviceLoop_zero env.createDevice driverTypes S_OK
        none (fun x => decide (x = InitEvent.createSwapChainLegacy
          ⟨1, env.clientRect.1, env.clientRect.2, DXGI_FORMAT_R8G8B8A8_UNORM, 60, 1,
            DXGI_USAGE_RENDER_TARGET_OUTPUT, hWnd, 1, 0, true⟩)) (fun d fls => by simp)
      have hzF := countP_factoryChainEvents_zero env
        (fun x => decide (x = InitEvent.createSwapChainLegacy
          ⟨1, env.clientRect.1, env.clientRect.2, DXGI_FORMAT_R8G8B8A8_UNORM, 60, 1,
            DXGI_USAGE_RENDER_TARGET_OUTPUT, hWnd, 1, 0, true⟩)) (by simp) (by simp)
      have hzB := countP_backBufferStage_zero env.getBuffer env.createRTV
        env.clientRect.1 env.clientRect.2 (swapStageHr env)
        (fun x => decide (x = InitEvent.createSwapChainLegacy
          ⟨1, env.clientRect.1, env.clientRect.2, DXGI_FORMAT_R8G8B8A8_UNORM, 60, 1,
            DXGI_USAGE_RENDER_TARGET_OUTPUT, hWnd, 1, 0, true⟩)) (by simp) (by simp)
        (by simp) (by simp)
      simp [initDevice, hLoop, hFac, hF2, countEvent, List.countP_append,
        List.countP_cons, hzL, hzF, hzB]
    · intro sd hw hmem
      simp only [initDevice, hLoop, hFac, hF2, Bool.false_eq_true, if_false, if_true,
        List.mem_append, List.mem_cons, List.mem_singleton] at hmem
      rcases hmem with ((h | h) | h) | h
      · rcases h with h | h
        · exact absurd h (by simp)
        · obtain ⟨d, fls, _, hf⟩ := mem_deviceLoop_events _ _ _ _ h
          exact absurd hf (by simp)
      · exact absurd h (not_mem_factoryChainEvents (by simp) (by simp))
      · rcases h with h | h | h <;> exact absurd h (by simp)
      · exact absurd h (not_mem_backBufferStage (by simp) (by simp) (by simp) (by simp))
    · simp [initDevice, hLoop, hFac, hF2]

/-- C4 witness: all-success environment takes the per-window path with the
claimed description. -/
theorem c4_swapchain_path_selection_witness :
    countEvent (initDevice envAll 4).events
        (InitEvent.createSwapChainForHwnd
          ⟨envAll.clientRect.1, envAll.clientRect.2, DXGI_FORMAT_R8G8B8A8_UNORM, 1, 0,
            DXGI_USAGE_RENDER_TARGET_OUTPUT, 1⟩ 4) = 1 :=
  ((c4_swapchain_path_selection envAll 4 (by decide) (by decide)).1 (by decide)).1

/-! ### Driver-loop attempt helpers -/

lemma initDevice_driverType (env : Env) (hWnd : Nat) :
    (initDevice env hWnd).state.driverType =
      (deviceLoop env.createDevice driverTypes S_OK none).driverType := by
  simp only [initDevice]
  split
  · rfl
  · split
    · rfl
    · split <;> rfl

lemma any_attemptCreate_attempt (create : DriverType → List FeatureLevel → HRESULT)
    (d dt : DriverType) :
    ((attemptCreate create d).2).any (isAttemptOf dt) = (d == dt) := by
  by_cases hc : create d featureLevels = E_INVALIDARG <;>
    simp [attemptCreate, hc, isAttemptOf]

lemma any_factoryChainEvents_attempt (env : Env) (dt : DriverType) :
    (factoryChainEvents env).any (isAttemptOf dt) = false := by
  rw [List.any_eq_false]
  intro e he
  rcases mem_factoryChainEvents he with h | h <;> simp [h, isAttemptOf]

lemma any_backBufferStage_attempt (g c : HRESULT) (w h : Nat) (hr : HRESULT)
    (dt : DriverType) :
    ((backBufferStage g c w h hr).2.2).any (isAttemptOf dt) = false := by
  rw [List.any_eq_false]
  intro e he
  rcases mem_backBufferStage_events he with h | h | h | h <;> simp [h, isAttemptOf]

lemma initDevice_dtAttempted (env : Env) (hWnd : Nat) (dt : DriverType) :
    dtAttempted (initDevice env hWnd).events dt =
      dtAttempted (deviceLoop env.createDevice driverTypes S_OK none).events dt := by
  simp only [initDevice, dtAttempted]
  split
  · simp [isAttemptOf]
  · split
    · simp [List.any_append, any_factoryChainEvents_attempt, isAttemptOf]
    · split <;>
        simp [List.any_append, any_factoryChainEvents_attempt,
          any_backBufferStage_attempt, isAttemptOf]

/-! ### C3 — driver-type fallback order -/

/-- C3: device creation is attempted over driver types in the fixed order
hardware, WARP, reference; the first driver type whose attempt (with its
`E_INVALIDARG` retry) succeeds is recorded in `m_driverType` and no later
driver type is ever attempted; if all three fail, `InitDevice` returns the
last (reference) attempt's failing HRESULT, no resource of the bundle is
created, and the trace holds nothing but the size query and the
`D3D11CreateDevice` attempts. -/
theorem c3_driver_fallback_order (env : Env) (hWnd : Nat) :
    (attemptOk env DriverType.hardware = true →
      (initDevice env hWnd).state.driverType = some DriverType.hardware ∧
      dtAttempted (initDevice env hWnd).events DriverType.hardware = true ∧
      dtAttempted (initDevice env hWnd).events DriverType.warp = false ∧
      dtAttempted (initDevice env hWnd).events DriverType.reference = false) ∧
    (attemptOk env DriverType.hardware = false →
      attemptOk env DriverType.warp = true →
      (initDevice env hWnd).state.driverType = some DriverType.warp ∧
      dtAttempted (initDevice env hWnd).events DriverType.hardware = true ∧
      dtAttempted (initDevice env hWnd).events DriverType.warp = true ∧
      dtAttempted (initDevice env hWnd).events DriverType.reference = false) ∧
    (attemptOk env DriverType.hardware = false →
      attemptOk env DriverType.warp = false →
      attemptOk env DriverType.reference = true →
      (initDevice env hWnd).state.driverType = some DriverType.reference) ∧
    (attemptOk env DriverType.hardware = false →
      attemptOk env DriverType.warp = false →
      attemptOk env DriverType.reference = false →
      (initDevice env hWnd).hr = attemptHr env DriverType.reference ∧
      FAILED (initDevice env hWnd).hr = true ∧
      (initDevice env hWnd).state.device = false ∧
      (initDevice env hWnd).state.immediateContext = false ∧
      (initDevice env hWnd).state.swapChain = false ∧
      (initDevice env hWnd).state.renderTargetView = false ∧
      ∀ e ∈ (initDevice env hWnd).events,
        e = InitEvent.getClientRect env.clientRect.1 env.clientRect.2 ∨
        ∃ d fls, e = InitEvent.createDeviceAttempt d fls) := by
  refine ⟨fun hH => ?_, fun hH hW => ?_, fun hH hW hR => ?_, fun hH hW hR => ?_⟩
  · simp only [attemptOk, attemptHr] at hH
    have hL : deviceLoop env.createDevice driverTypes S_OK none =
        ⟨(attemptCreate env.createDevice DriverType.hardware).1,
          some DriverType.hardware,
          (attemptCreate env.createDevice DriverType.hardware).2⟩ := by
      simp [driverTypes, deviceLoop, hH]
    refine ⟨by rw [initDevice_driverType, hL], ?_, ?_, ?_⟩ <;>
    · rw [initDevice_dtAttempted, hL]
      simp [dtAttempted, any_attemptCreate_attempt]
  · simp only [attemptOk, attemptHr] at hH hW
    have hL : deviceLoop env.createDevice driverTypes S_OK none =
        ⟨(attemptCreate env.createDevice DriverType.warp).1, some DriverType.warp,
          (attemptCreate env.createDevice DriverType.hardware).2 ++
            (attemptCreate env.createDevice DriverType.warp).2⟩ := by
      simp [driverTypes, deviceLoop, hH, hW]
    refine ⟨by rw [initDevice_driverType, hL], ?_, ?_, ?_⟩ <;>
    · rw [initDevice_dtAttempted, hL]
      simp [dtAttempted, List.any_append, any_attemptCreate_attempt]
  · simp only [attemptOk, attemptHr] at hH hW hR
    have hL : deviceLoop env.createDevice driverTypes S_OK none =
        ⟨(attemptCreate env.createDevice DriverType.reference).1,
          some DriverType.reference,
          (attemptCreate env.createDevice DriverType.hardware).2 ++
            ((attemptCreate env.createDevice DriverType.warp).2 ++
              (attemptCreate env.createDevice DriverType.reference).2)⟩ := by
      simp [driverTypes, deviceLoop, hH, hW, hR]
    rw [initDevice_driverType, hL]
  · simp only [attemptOk, attemptHr] at hH hW hR
    have hL : deviceLoop env.createDevice driverTypes S_OK none =
        ⟨(attemptCreate env.createDevice DriverType.reference).1,
          some DriverType.reference,
          (attemptCreate env.createDevice DriverType.hardware).2 ++
            ((attemptCreate env.createDevice DriverType.warp).2 ++
              (attemptCreate env.createDevice DriverType.reference).2)⟩ := by
      simp [driverTypes, deviceLoop, hH, hW, hR]
    have hFR : FAILED (attemptCreate env.createDevice DriverType.reference).1 = true :=
      failed_of_succeeded_false hR
    refine ⟨?_, ?_, ?_, ?_, ?_, ?_, ?_⟩
    · simp [initDevice, hL, hFR, attemptHr]
    · simp [initDevice, hL, hFR]
    · simp [initDevice, hL, hFR, hR]
    · simp [initDevice, hL, hFR, hR]
    · simp [initDevice, hL, hFR]
    · simp [initDevice, hL, hFR]
    · have hEv : (initDevice env hWnd).events =
          InitEvent.getClientRect env.clientRect.1 env.clientRect.2 ::
            ((attemptCreate env.createDevice DriverType.hardware).2 ++
              ((attemptCreate env.createDevice DriverType.warp).2 ++
                (attemptCreate env.createDevice DriverType.reference).2)) := by
        simp [initDevice, hL, hFR]
      rw [hEv]
      intro e he
      rcases List.mem_cons.mp he with h | h
      · exact Or.inl h
      · rcases List.mem_append.mp h with h | h
        · obtain ⟨fls, hf⟩ := mem_attemptCreate_events h
          exact Or.inr ⟨_, fls, hf⟩
        · rcases List.mem_append.mp h with h | h <;>
          · obtain ⟨fls, hf⟩ := mem_attemptCreate_events h
            exact Or.inr ⟨_, fls, hf⟩

/-- C3 witness: all-success environment selects the hardware driver type. -/
theorem c3_driver_fallback_order_witness :
    (initDevice envAll 3).state.driverType = some DriverType.hardware :=
  ((c3_driver_fallback_order envAll 3).1 (by decide)).1

/-! ### C10 — single size read, shared by swap chain and viewport -/

lemma mem_initDevice_events {env : Env} {hWnd : Nat} {e : InitEvent}
    (hm : e ∈ (initDevice env hWnd).events) :
    e = InitEvent.getClientRect env.clientRect.1 env.clientRect.2 ∨
    (∃ d fls, e = InitEvent.createDeviceAttempt d fls) ∨
    e = InitEvent.releaseAdapter ∨
    e = InitEvent.releaseDXGIDevice ∨
    e = InitEvent.createSwapChainForHwnd
        ⟨env.clientRect.1, env.clientRect.2, DXGI_FORMAT_R8G8B8A8_UNORM, 1, 0,
          DXGI_USAGE_RENDER_TARGET_OUTPUT, 1⟩ hWnd ∨
    e = InitEvent.releaseFactory2 ∨
    e = InitEvent.createSwapChainLegacy
        ⟨1, env.clientRect.1, env.clientRect.2, DXGI_FORMAT_R8G8B8A8_UNORM, 60, 1,
          DXGI_USAGE_RENDER_TARGET_OUTPUT, hWnd, 1, 0, true⟩ ∨
    e = InitEvent.makeWindowAssociation hWnd DXGI_MWA_NO_ALT_ENTER ∨
    e = InitEvent.releaseFactory ∨
    e = InitEvent.getBuffer ∨
    e = InitEvent.releaseBackBuffer ∨
    e = InitEvent.setRenderTargets 1 ∨
    e = InitEvent.setViewports
        [⟨0, 0, env.clientRect.1, env.clientRect.2, 0, 1⟩] := by
  by_cases h1 : FAILED (deviceLoop env.createDevice driverTypes S_OK none).hr = true
  · simp [initDevice, h1] at hm
    rcases hm with h | h
    · exact Or.inl h
    · obtain ⟨d, fls, _, hf⟩ := mem_deviceLoop_events _ _ _ _ h
      exact Or.inr (Or.inl ⟨d, fls, hf⟩)
  · by_cases h2 : FAILED (factoryChainHr env) = true
    · simp [initDevice, h1, h2] at hm
      rcases hm with h | h | h
      · exact Or.inl h
      · obtain ⟨d, fls, _, hf⟩ := mem_deviceLoop_events _ _ _ _ h
        exact Or.inr (Or.inl ⟨d, fls, hf⟩)
      · rcases mem_factoryChainEvents h with h | h <;> simp [h]
    · by_cases hF2 : SUCCEEDED env.queryFactory2 = true
      · simp [initDevice, h1, h2, hF2] at hm
        rcases hm with h | h | h | h | h | h | h | h
        · exact Or.inl h
        · obtain ⟨d, fls, _, hf⟩ := mem_deviceLoop_events _ _ _ _ h
          exact Or.inr (Or.inl ⟨d, fls, hf⟩)
        · rcases mem_factoryChainEvents h with h | h <;> simp [h]
        · simp [h]
        · simp [h]
        · simp [h]
        · simp [h]
        · rcases mem_backBufferStage_events h with h | h | h | h <;> simp [h]
      · simp [initDevice, h1, h2, hF2] at hm
        rcases hm with h | h | h | h | h | h | h
        · exact Or.inl h
        · obtain ⟨d, fls, _, hf⟩ := mem_deviceLoop_events _ _ _ _ h
          exact Or.inr (Or.inl ⟨d, fls, hf⟩)
        · rcases mem_factoryChainEvents h with h | h <;> simp [h]
        · simp [h]
        · simp [h]
        · simp [h]
        · rcases mem_backBufferStage_events h with h | h | h | h <;> simp [h]

/-- C10: `GetClientRect` is called exactly once per `InitDevice` run, as the
very first platform effect, and the single (width, height) pair it returns
is the one used both in the swap-chain description of either creation path
and in the viewport, so the swap-chain dimensions and the viewport
dimensions agree with each other on every run. -/
theorem c10_single_size_read (env : Env) (hWnd : Nat) :
    (initDevice env hWnd).events.countP isGetClientRect = 1 ∧
    (initDevice env hWnd).events.head? =
      some (InitEvent.getClientRect env.clientRect.1 env.clientRect.2) ∧
    (∀ sd hw, InitEvent.createSwapChainForHwnd sd hw ∈ (initDevice env hWnd).events →
      sd.width = env.clientRect.1 ∧ sd.height = env.clientRect.2) ∧
    (∀ sd, InitEvent.createSwapChainLegacy sd ∈ (initDevice env hWnd).events →
      sd.width = env.clientRect.1 ∧ sd.height = env.clientRect.2) ∧
    (∀ vps vp, InitEvent.setViewports vps ∈ (initDevice env hWnd).events →
      vp ∈ vps → vp.width = env.clientRect.1 ∧ vp.height = env.clientRect.2) := by
  refine ⟨?_, ?_, fun sd hw hm => ?_, fun sd hm => ?_, fun vps vp hm hv => ?_⟩
  · have hzL := countP_deviceLoop_zero env.createDevice driverTypes S_OK
      none isGetClientRect (fun d fls => rfl)
    have hzF := countP_factoryChainEvents_zero env isGetClientRect rfl rfl
    have hzB := countP_backBufferStage_zero env.getBuffer env.createRTV
      env.clientRect.1 env.clientRect.2 (swapStageHr env) isGetClientRect
      rfl rfl rfl rfl
    by_cases h1 : FAILED (deviceLoop env.createDevice driverTypes S_OK none).hr = true
    · simp [initDevice, h1, List.countP_cons, hzL, isGetClientRect]
    · by_cases h2 : FAILED (factoryChainHr env) = true
      · simp [initDevice, h1, h2, List.countP_append, List.countP_cons, hzL, hzF,
          isGetClientRect]
      · by_cases hF2 : SUCCEEDED env.queryFactory2 = true <;>
          simp [initDevice, h1, h2, hF2, List.countP_append, List.countP_cons,
            hzL, hzF, hzB, isGetClientRect]
  · by_cases h1 : FAILED (deviceLoop env.createDevice driverTypes S_OK none).hr = true <;>
      by_cases h2 : FAILED (factoryChainHr env) = true <;>
      by_cases hF2 : SUCCEEDED env.queryFactory2 = true <;>
      simp [initDevice, h1, h2, hF2]
  · rcases mem_initDevice_events hm with h | h | h | h | h | h | h | h | h | h | h | h | h
    · exact absurd h (by simp)
    · obtain ⟨d, fls, hf⟩ := h
      exact absurd hf (by simp)
    · exact absurd h (by simp)
    · exact absurd h (by simp)
    · simp only [InitEvent.createSwapChainForHwnd.injEq] at h
      rw [h.1]
      exact ⟨rfl, rfl⟩
    · exact absurd h (by simp)
    · exact absurd h (by simp)
    · exact absurd h (by simp)
    · exact absurd h (by simp)
    · exact absurd h (by simp)
    · exact absurd h (by simp)
    · exact absurd h (by simp)
    · exact absurd h (by simp)
  · rcases mem_initDevice_events hm with h | h | h | h | h | h | h | h | h | h | h | h | h
    · exact absurd h (by simp)
    · obtain ⟨d, fls, hf⟩ := h
      exact absurd hf (by simp)
    · exact absurd h (by simp)
    · exact absurd h (by simp)
    · exact absurd h (by simp)
    · exact absurd h (by simp)
    · simp only [InitEvent.createSwapChainLegacy.injEq] at h
      rw [h]
      exact ⟨rfl, rfl⟩
    · exact absurd h (by simp)
    · exact absurd h (by simp)
    · exact absurd h (by simp)
    · exact absurd h (by simp)
    · exact absurd h (by simp)
    · exact absurd h (by simp)
  · rcases mem_initDevice_events hm with h | h | h | h | h | h | h | h | h | h | h | h | h
    · exact absurd h (by simp)
    · obtain ⟨d, fls, hf⟩ := h
      exact absurd hf (by simp)
    · exact absurd h (by simp)
    · exact absurd h (by simp)
    · exact absurd h (by simp)
    · exact absurd h (by simp)
    · exact absurd h (by simp)
    · exact absurd h (by simp)
    · exact absurd h (by simp)
    · exact absurd h (by simp)
    · exact absurd h (by simp)
    · exact absurd h (by simp)
    · simp only [InitEvent.setViewports.injEq] at h
      rw [h] at hv
      rcases List.mem_singleton.mp hv with rfl
      exact ⟨rfl, rfl⟩

/-- C10 witness: on the all-success environment the trace starts with the
single size query. -/
theorem c10_single_size_read_witness :
    (initDevice envAll 10).events.head? =
      some (InitEvent.getClientRect envAll.clientRect.1 envAll.clientRect.2) :=
  (c10_single_size_read envAll 10).2.1

end Renderer
